import Mathlib

/-!
# Verification of the better-sqlite3 driver layer

A shallow embedding of `src/driver/better-sqlite3/BetterSqlite3Driver.ts`:
the connection lifecycle, the attachment registry populated by
`buildTableName`, the connect/attach sequencing, and dependency loading.
Filesystem paths are modelled with POSIX semantics matching Node's `path`
module (`join`, `dirname`, normalization), since the driver resolves
attachment paths with those functions.
-/

namespace BetterSqlite3

/-! ## Path model (Node `path`, POSIX flavour) -/

/-- Split a character list on `/`. -/
def splitSlash : List Char → List (List Char)
  | [] => [[]]
  | c :: rest =>
    if c = '/' then [] :: splitSlash rest
    else
      match splitSlash rest with
      | [] => [[c]]
      | g :: gs => (c :: g) :: gs

/-- Does the path string start with a separator? -/
def headIsSlash (p : String) : Bool :=
  match p.data with
  | [] => false
  | c :: _ => c = '/'

/-- Path segments of a path string: split on `/`, dropping empty segments. -/
def pathSegs (p : String) : List String :=
  ((splitSlash p.data).filter (fun l => l ≠ [])).map String.mk

/-- One step of Node path normalization over a segment stack (stack is kept
reversed). `.` is dropped; `..` pops a real segment, is dropped at the root
of an absolute path, and is kept for a relative path with nothing to pop. -/
def normStep (abs : Bool) (acc : List String) (s : String) : List String :=
  if s = "." then acc
  else if s = ".." then
    match acc with
    | [] => if abs then [] else [".."]
    | t :: rest => if t = ".." then s :: acc else rest
  else s :: acc

/-- Node `path.normalize` (POSIX), restricted to what the driver needs:
resolves `.` and `..` segments and collapses separators. -/
def pathNormalize (p : String) : String :=
  let abs := headIsSlash p
  let out := ((pathSegs p).foldl (normStep abs) []).reverse
  if abs then "/" ++ String.intercalate "/" out
  else if out.isEmpty then "." else String.intercalate "/" out

/-- Node `path.join` (POSIX) for two arguments: concatenate with a separator
and normalize. -/
def pathJoin (a b : String) : String :=
  if a = "" then pathNormalize b
  else if b = "" then pathNormalize a
  else pathNormalize (a ++ "/" ++ b)

/-- Node `path.dirname` (POSIX): everything before the final segment, `.`
for a bare filename, `/` at the root. -/
def pathDirname (p : String) : String :=
  let abs := headIsSlash p
  match (pathSegs p).dropLast with
  | [] => if abs then "/" else "."
  | segs => (if abs then "/" else "") ++ String.intercalate "/" segs

/-- Modelled from the spec: `PathUtils.isAbsolute` is imported by the driver
but its source is outside this tree; per the spec's Path Resolver contract it
follows standard filesystem semantics. POSIX: absolute iff the path starts
with a separator. -/
def isAbsolute (filepath : String) : Bool :=
  headIsSlash filepath

/-- Modelled from the spec: `PathUtils.filepathToName` is imported by the
driver but its source is outside this tree; per the spec it deterministically
derives a short identifier-safe handle from the supplied path string (a pure
function, same input gives same output, distinct inputs collide with
negligible probability). Modelled as an injective encoding of the string. -/
def filepathToName (filepath : String) : String :=
  "db_" ++ filepath

/-! ## Data model -/

/-- `BetterSqlite3ConnectionOptions`, with the fields the driver reads.
`driver` and `prepareDatabase` are opaque at this layer: we track the
override binding as an optional token and the hook by presence. -/
structure ConnectionOptions where
  database : String
  readonly : Bool := false
  fileMustExist : Bool := false
  timeout : Nat := 5000
  key : Option String := none
  hasPrepareDatabase : Bool := false
  enableWAL : Bool := false
  baseDirectory : Option String := none
  driver : Option Nat := none
  deriving Repr, DecidableEq

/-- One entry of the attachment registry (`attachedDatabases`), created by
`buildTableName` for each non-primary logical database reference. -/
structure AttachedDatabaseEntry where
  attachFilepathAbsolute : String
  attachFilepathRelative : String
  attachHandle : String
  deriving Repr, DecidableEq

/-- The physical engine handle returned by the better-sqlite3 binding;
we track whether the underlying connection is open. -/
structure EngineHandle where
  isOpen : Bool
  deriving Repr, DecidableEq

/-- Errors observable from the driver layer. `typeError` models a JavaScript
runtime `TypeError` (dereferencing `undefined`); `driverPackageNotInstalled`
models `DriverPackageNotInstalledError`; `invalidConnection` models the
spec's `InvalidConnection` error (included so we can state that the code
never raises it). -/
inductive JsError where
  | typeError : JsError
  | driverPackageNotInstalled : String → String → JsError
  | invalidConnection : JsError
  deriving Repr, DecidableEq

/-- The mutable state of a `BetterSqlite3Driver` instance: the resolved
options, the loaded engine binding (a token), the physical connection
handle, the lazily cached query runner (tracked by presence), and the
attachment registry keyed by the raw supplied reference string, in
insertion order. -/
structure DriverState where
  options : ConnectionOptions
  sqlite : Nat
  databaseConnection : Option EngineHandle := none
  queryRunner : Bool := false
  attachedDatabases : List (String × AttachedDatabaseEntry) := []
  deriving Repr, DecidableEq

/-- Association lookup in the registry by raw reference string. -/
def lookupEntry : List (String × AttachedDatabaseEntry) → String →
    Option AttachedDatabaseEntry
  | [], _ => none
  | (k, e) :: rest, r => if k = r then some e else lookupEntry rest r

/-- Modelled from the spec: `getAttachedDatabaseHandleByRelativePath` lives in
`AbstractSqliteDriver`, outside this tree; per the spec's Attachment Registry
contract it returns the existing entry's handle when the logical reference
already has a registry entry. -/
def getAttachedDatabaseHandleByRelativePath (s : DriverState)
    (path : String) : Option String :=
  (lookupEntry s.attachedDatabases path).map (fun e => e.attachHandle)

/-- `getMainDatabasePath`: the directory containing the primary database
file. When the primary path is relative it is joined onto
`options.baseDirectory!`; the non-null assertion on an absent
`baseDirectory` is a runtime failure, modelled as `none`. -/
def getMainDatabasePath (o : ConnectionOptions) : Option String :=
  if isAbsolute o.database then some (pathDirname o.database)
  else o.baseDirectory.map (fun b => pathDirname (pathJoin b o.database))

/-- `buildTableName tableName schema database`: qualifies a table identifier
with an attach handle, creating a registry entry on first sight of a
non-primary logical database reference. `database` empty or absent is the
JavaScript falsy check. Errors propagate from the `baseDirectory!`
dereference inside `getMainDatabasePath`. -/
def buildTableName (s : DriverState) (tableName : String)
    (_schema : Option String) (database : Option String) :
    Except JsError (String × DriverState) :=
  match database with
  | none => Except.ok (tableName, s)
  | some db =>
    if db = "" then Except.ok (tableName, s)
    else
      match getAttachedDatabaseHandleByRelativePath s db with
      | some h => Except.ok (h ++ "." ++ tableName, s)
      | none =>
        if db = s.options.database then Except.ok (tableName, s)
        else
          let identifierHash := filepathToName db
          match (if isAbsolute db then some db
                 else (getMainDatabasePath s.options).map
                   (fun m => pathJoin m db)) with
          | none => Except.error JsError.typeError
          | some absFilepath =>
            Except.ok (identifierHash ++ "." ++ tableName,
              { s with attachedDatabases := s.attachedDatabases ++
                  [(db, { attachFilepathAbsolute := absFilepath,
                          attachFilepathRelative := db,
                          attachHandle := identifierHash })] })

/-! ## Connection lifecycle -/

/-- The engine's `close()` on a handle: closes the physical connection.
better-sqlite3's `close` is a no-op on an already-closed database, so the
modelled close is idempotent. -/
def engineClose (h : EngineHandle) : EngineHandle :=
  { h with isOpen := false }

/-- `disconnect`: drops the cached query runner, then calls
`this.databaseConnection.close()` with no guard. When the driver was never
connected the handle field is `undefined` and the call raises a
`TypeError`; the query runner was already cleared when the error is
raised, so the post-state is returned alongside the error. -/
def disconnect (s : DriverState) : Option JsError × DriverState :=
  let s1 := { s with queryRunner := false }
  match s1.databaseConnection with
  | none => (some JsError.typeError, s1)
  | some h => (none, { s1 with databaseConnection := some (engineClose h) })

/-- `createQueryRunner`: constructs the runner on first request and caches
it; later requests reuse the cached one. The replication mode argument is
ignored. -/
def createQueryRunner (s : DriverState) : DriverState :=
  if s.queryRunner then s else { s with queryRunner := true }

/-- Modelled from the spec: `AbstractSqliteDriver.connect` lives outside this
tree; per the spec's Connect contract it acquires the physical connection
handle (via `createDatabaseConnection`) and stores it on the driver. -/
def connect (s : DriverState) : DriverState :=
  { s with databaseConnection := some { isOpen := true } }

/-! ## Dependency loading and construction -/

/-- `loadDependencies`: use the explicit `options.driver` override when
supplied, otherwise load the `better-sqlite3` package (availability of the
runtime dependency is the `platformLoad` argument); a failed load raises
`DriverPackageNotInstalledError("SQLite", "better-sqlite3")`. -/
def loadDependencies (driverOpt : Option Nat) (platformLoad : Option Nat) :
    Except JsError Nat :=
  match driverOpt with
  | some d => Except.ok d
  | none =>
    match platformLoad with
    | some m => Except.ok m
    | none => Except.error
        (JsError.driverPackageNotInstalled "SQLite" "better-sqlite3")

/-- The state of a freshly constructed driver with loaded binding `eng`:
no connection, no query runner, empty registry. -/
def initialState (o : ConnectionOptions) (eng : Nat) : DriverState :=
  { options := o, sqlite := eng }

/-- The `BetterSqlite3Driver` constructor: records the options and runs
`loadDependencies`; a load failure propagates out of construction, so no
driver instance exists on failure. -/
def constructDriver (o : ConnectionOptions) (platformLoad : Option Nat) :
    Except JsError DriverState :=
  match loadDependencies o.driver platformLoad with
  | Except.error e => Except.error e
  | Except.ok eng => Except.ok (initialState o eng)

/-! ## Connect and attachment traces

The externally observable side effects of `createDatabaseConnection` and
`attachDatabases`, in program order. -/

/-- Observable side effects during connect and attachment: recursive
directory creation, opening the physical handle, the `PRAGMA key`,
`prepareDatabase` hook, `PRAGMA foreign_keys = ON` and
`PRAGMA journal_mode = WAL` steps, and each `ATTACH` statement
(absolute path, handle). -/
inductive ConnectEvent where
  | mkdir : String → ConnectEvent
  | openConn : ConnectEvent
  | keyPragma : ConnectEvent
  | prepareHook : ConnectEvent
  | fkPragma : ConnectEvent
  | walPragma : ConnectEvent
  | attach : String → String → ConnectEvent
  deriving Repr, DecidableEq

/-- The side-effect trace of `createDatabaseConnection`: directory creation
for the primary database unless it is `:memory:`, the open call, then the
key pragma (if a key is configured), the `prepareDatabase` hook (if
configured), foreign-key enforcement unconditionally, and WAL mode (if
`enableWAL`), in program order. -/
def createDatabaseConnectionTrace (o : ConnectionOptions) : List ConnectEvent :=
  (if o.database ≠ ":memory:" then [ConnectEvent.mkdir (pathDirname o.database)]
   else [])
  ++ [ConnectEvent.openConn]
  ++ (if o.key.isSome then [ConnectEvent.keyPragma] else [])
  ++ (if o.hasPrepareDatabase then [ConnectEvent.prepareHook] else [])
  ++ [ConnectEvent.fkPragma]
  ++ (if o.enableWAL then [ConnectEvent.walPragma] else [])

/-- The side-effect trace of `attachDatabases` (reached via `afterConnect`):
for each registry entry in insertion order, create the entry's containing
directory, then issue its `ATTACH` statement. -/
def attachDatabasesTrace (reg : List (String × AttachedDatabaseEntry)) :
    List ConnectEvent :=
  reg.flatMap (fun e =>
    [ConnectEvent.mkdir (pathDirname e.2.attachFilepathAbsolute),
     ConnectEvent.attach e.2.attachFilepathAbsolute e.2.attachHandle])

/-- Modelled from the spec: the Connection Bootstrapper (outside this tree)
runs connect to completion and only then runs the post-connect attachment
step, so the full observable trace of one connect is the
`createDatabaseConnection` trace followed by the `attachDatabases` trace. -/
def fullConnectTrace (o : ConnectionOptions)
    (reg : List (String × AttachedDatabaseEntry)) : List ConnectEvent :=
  createDatabaseConnectionTrace o ++ attachDatabasesTrace reg

/-- Position of an event in the spec's fixed connect sub-step order
(key, hook, foreign keys, WAL, attachments); `none` for events outside
that order (directory creation, the open call). -/
def connectPhase : ConnectEvent → Option Nat
  | ConnectEvent.keyPragma => some 0
  | ConnectEvent.prepareHook => some 1
  | ConnectEvent.fkPragma => some 2
  | ConnectEvent.walPragma => some 3
  | ConnectEvent.attach _ _ => some 4
  | _ => none

/-! ## Reachable driver states and lifecycle runs -/

/-- Driver states reachable from construction through the driver's public
operations: construction, table-name resolution (whether it succeeds or
raises), query-runner creation, connect and disconnect. -/
inductive Reached (o : ConnectionOptions) : DriverState → Prop where
  | init (eng : Nat) : Reached o (initialState o eng)
  | build {s : DriverState} {id : String} {sch db : Option String}
      {n : String} {s' : DriverState} : Reached o s →
      buildTableName s id sch db = Except.ok (n, s') → Reached o s'
  | runner {s : DriverState} : Reached o s → Reached o (createQueryRunner s)
  | conn {s : DriverState} : Reached o s → Reached o (connect s)
  | disc {s : DriverState} : Reached o s → Reached o (disconnect s).2

/-- Lifecycle operations for the handle-existence invariant. -/
inductive LifeOp where
  | connectOp : LifeOp
  | disconnectOp : LifeOp
  deriving Repr, DecidableEq

/-- Run a sequence of lifecycle operations from a state (a disconnect's
error, if any, leaves its post-state in effect). -/
def runOps (s : DriverState) : List LifeOp → DriverState
  | [] => s
  | LifeOp.connectOp :: rest => runOps (connect s) rest
  | LifeOp.disconnectOp :: rest => runOps (disconnect s).2 rest

/-- After this operation sequence, has a connect succeeded with no
disconnect called since? -/
def connectedNow (ops : List LifeOp) : Bool :=
  ops.foldl (fun _ op =>
    match op with
    | LifeOp.connectOp => true
    | LifeOp.disconnectOp => false) false

/-- The driver holds an open physical connection handle. -/
def handleOpen (s : DriverState) : Prop :=
  ∃ h, s.databaseConnection = some h ∧ h.isOpen = true

instance (s : DriverState) : Decidable (handleOpen s) := by
  unfold handleOpen
  match hc : s.databaseConnection with
  | none => exact Decidable.isFalse (by simp [hc])
  | some h => exact decidable_of_iff (h.isOpen = true) (by simp [hc])

/-! ## Registry lemmas -/

theorem lookupEntry_append_of_none {l : List (String × AttachedDatabaseEntry)}
    {r : String} (h : lookupEntry l r = none) (k : String)
    (e : AttachedDatabaseEntry) :
    lookupEntry (l ++ [(k, e)]) r = if k = r then some e else none := by
  induction l with
  | nil => rfl
  | cons p rest ih =>
    simp only [lookupEntry] at h ⊢
    by_cases hk : p.1 = r
    · simp [hk] at h
    · simp only [List.cons_append, lookupEntry, hk, if_false] at h ⊢
      exact ih h

theorem lookupEntry_append_of_some {l : List (String × AttachedDatabaseEntry)}
    {r : String} {x : AttachedDatabaseEntry} (h : lookupEntry l r = some x)
    (k : String) (e : AttachedDatabaseEntry) :
    lookupEntry (l ++ [(k, e)]) r = some x := by
  induction l with
  | nil => simp [lookupEntry] at h
  | cons p rest ih =>
    simp only [lookupEntry] at h ⊢
    by_cases hk : p.1 = r
    · simpa [hk] using h
    · simp only [List.cons_append, lookupEntry, hk, if_false] at h ⊢
      exact ih h

/-- Case analysis on a successful `buildTableName` call: either the state is
unchanged, or exactly one registry entry was appended, keyed by the raw
supplied reference, with the handle derived from that raw reference; the
inserted reference is never the primary database, and a relative reference
requires `getMainDatabasePath` to have succeeded. -/
theorem buildTableName_ok_elim {s : DriverState} {id : String}
    {sch db : Option String} {n : String} {s' : DriverState}
    (h : buildTableName s id sch db = Except.ok (n, s')) :
    s' = s ∨
    ∃ d abs, db = some d ∧ d ≠ "" ∧
      lookupEntry s.attachedDatabases d = none ∧
      d ≠ s.options.database ∧
      (isAbsolute d = false →
        ∃ mp, getMainDatabasePath s.options = some mp ∧ abs = pathJoin mp d) ∧
      n = filepathToName d ++ "." ++ id ∧
      s' = { s with attachedDatabases := s.attachedDatabases ++
        [(d, { attachFilepathAbsolute := abs, attachFilepathRelative := d,
               attachHandle := filepathToName d })] } := by
  match db with
  | none =>
    left
    simp only [buildTableName, Except.ok.injEq, Prod.mk.injEq] at h
    exact h.2.symm
  | some d =>
    by_cases hd : d = ""
    · left
      simp only [buildTableName, hd, if_true, Except.ok.injEq, Prod.mk.injEq] at h
      exact h.2.symm
    · simp only [buildTableName, hd, if_false,
        getAttachedDatabaseHandleByRelativePath] at h
      match hl : lookupEntry s.attachedDatabases d with
      | some e =>
        left
        simp only [hl, Option.map_some', Except.ok.injEq, Prod.mk.injEq] at h
        exact h.2.symm
      | none =>
        simp only [hl, Option.map_none'] at h
        by_cases hp : d = s.options.database
        · left
          simp only [hp, if_true, Except.ok.injEq, Prod.mk.injEq] at h
          exact h.2.symm
        · simp only [hp, if_false] at h
          right
          by_cases ha : isAbsolute d
          · simp only [ha, if_true, Except.ok.injEq, Prod.mk.injEq] at h
            exact ⟨d, d, rfl, hd, hl, hp, fun hc => by simp [ha] at hc,
              h.1.symm, h.2.symm⟩
          · rw [if_neg ha] at h
            match hm : getMainDatabasePath s.options with
            | none => simp [hm] at h
            | some mp =>
              simp only [hm, Option.map_some', Except.ok.injEq,
                Prod.mk.injEq] at h
              exact ⟨d, pathJoin mp d, rfl, hd, hl, hp,
                fun _ => ⟨mp, rfl, rfl⟩, h.1.symm, h.2.symm⟩

/-- Invariant of reachable driver states: the options are the construction
options, the primary database reference never acquires a registry entry,
and when the primary path is relative with no `baseDirectory` configured,
no relative reference can acquire a registry entry either. -/
theorem reached_inv {o : ConnectionOptions} {s : DriverState}
    (h : Reached o s) :
    s.options = o ∧
    lookupEntry s.attachedDatabases o.database = none ∧
    (isAbsolute o.database = false → o.baseDirectory = none →
      ∀ k, isAbsolute k = false → lookupEntry s.attachedDatabases k = none) := by
  induction h with
  | init eng => exact ⟨rfl, rfl, fun _ _ _ _ => rfl⟩
  | build hr hb ih =>
    rcases buildTableName_ok_elim hb with heq | ⟨d, abs, _, _, hl, hnp, hrel, _, heq⟩
    · exact heq ▸ ih
    · obtain ⟨iho, ihp, ihrel⟩ := ih
      subst heq
      refine ⟨iho, ?_, ?_⟩
      · rw [lookupEntry_append_of_none ihp]
        simp [iho ▸ hnp]
      · intro hpa hbd k hk
        rw [lookupEntry_append_of_none (ihrel hpa hbd k hk)]
        have hda : isAbsolute d = true := by
          by_contra hc
          obtain ⟨mp, hmp, _⟩ := hrel (by simpa using hc)
          rw [iho] at hmp
          simp [getMainDatabasePath, hpa, hbd] at hmp
        have : d ≠ k := fun hdk => by rw [hdk] at hda; simp [hda] at hk
        simp [this]
  | runner hr ih =>
    simp only [createQueryRunner]
    split <;> exact ih
  | conn hr ih => exact ih
  | disc hr ih =>
    obtain ⟨iho, ihp, ihrel⟩ := ih
    simp only [disconnect]
    split <;> exact ⟨iho, ihp, ihrel⟩

/-! ## Claim theorems: table-name resolution -/

/-- C3: `buildTableName` is idempotent per logical database reference: after
a successful call, repeating the call with the same identifier, schema and
reference returns the same handle-qualified name, reuses the existing
registry entry's handle, and changes nothing — no second handle and no
second registry entry are ever allocated for the same reference. -/
theorem buildTableName_idempotent (s : DriverState) (id : String)
    (sch db : Option String) (n : String) (s' : DriverState)
    (h : buildTableName s id sch db = Except.ok (n, s')) :
    buildTableName s' id sch db = Except.ok (n, s') := by
  rcases buildTableName_ok_elim h with heq | ⟨d, abs, hdb, hd, hl, hp, _, hn, heq⟩
  · subst heq
    exact h
  · subst hdb
    subst heq
    subst hn
    have hlook := lookupEntry_append_of_none hl d
      { attachFilepathAbsolute := abs, attachFilepathRelative := d,
        attachHandle := filepathToName d }
    rw [if_pos rfl] at hlook
    simp [buildTableName, hd, getAttachedDatabaseHandleByRelativePath, hlook]

/-- Witness for C3: a second resolution of `ext.db` next to primary
`/data/main.db` returns the same qualified name and leaves the registry
unchanged. -/
theorem buildTableName_idempotent_witness :
    buildTableName
      { options := { database := "/data/main.db" }, sqlite := 0,
        attachedDatabases := [("ext.db",
          { attachFilepathAbsolute := "/data/ext.db",
            attachFilepathRelative := "ext.db",
            attachHandle := "db_ext.db" })] } "t" none (some "ext.db") =
      Except.ok ("db_ext.db.t",
        { options := { database := "/data/main.db" }, sqlite := 0,
          attachedDatabases := [("ext.db",
            { attachFilepathAbsolute := "/data/ext.db",
              attachFilepathRelative := "ext.db",
              attachHandle := "db_ext.db" })] }) :=
  buildTableName_idempotent (initialState { database := "/data/main.db" } 0)
    "t" none (some "ext.db") "db_ext.db.t"
    { options := { database := "/data/main.db" }, sqlite := 0,
      attachedDatabases := [("ext.db",
        { attachFilepathAbsolute := "/data/ext.db",
          attachFilepathRelative := "ext.db",
          attachHandle := "db_ext.db" })] } rfl

/-- C5: in any reachable driver state, `buildTableName` returns the
identifier unqualified, with no registry insertion, when the logical
database reference is absent, empty, or equal to the primary database's own
reference; the primary reference never has a registry entry (the primary
store is never attached to itself). -/
theorem buildTableName_primary_unqualified (o : ConnectionOptions)
    (s : DriverState) (h : Reached o s) (id : String) (sch : Option String) :
    buildTableName s id sch none = Except.ok (id, s) ∧
    buildTableName s id sch (some "") = Except.ok (id, s) ∧
    buildTableName s id sch (some o.database) = Except.ok (id, s) ∧
    lookupEntry s.attachedDatabases o.database = none := by
  obtain ⟨ho, hp, _⟩ := reached_inv h
  refine ⟨rfl, rfl, ?_, hp⟩
  by_cases he : o.database = ""
  · simp [buildTableName, he]
  · simp [buildTableName, he, getAttachedDatabaseHandleByRelativePath, hp, ho]

/-- Witness for C5: resolving the primary reference `/data/main.db` itself
in a freshly constructed driver returns the bare identifier and an
unchanged state. -/
theorem buildTableName_primary_unqualified_witness :
    buildTableName (initialState { database := "/data/main.db" } 0) "t" none
        (some "/data/main.db") =
      Except.ok ("t", initialState { database := "/data/main.db" } 0) :=
  (buildTableName_primary_unqualified { database := "/data/main.db" }
    (initialState { database := "/data/main.db" } 0)
    (Reached.init 0) "t" none).2.2.1

/-- C2 counterexample: with primary path `/data/main.db` and relative
reference `../shared/ext.db`, the stored absolute attachment path is
`/shared/ext.db` — `path.join` lets the `..` ascend out of `/data` — not
`/data/shared/ext.db` as the claim's example states. -/
theorem relative_resolution_counterexample :
    buildTableName (initialState { database := "/data/main.db" } 0) "t" none
        (some "../shared/ext.db") =
      Except.ok ("db_../shared/ext.db.t",
        { options := { database := "/data/main.db" }, sqlite := 0,
          attachedDatabases := [("../shared/ext.db",
            { attachFilepathAbsolute := "/shared/ext.db",
              attachFilepathRelative := "../shared/ext.db",
              attachHandle := "db_../shared/ext.db" })] }) ∧
    "/shared/ext.db" ≠ "/data/shared/ext.db" :=
  ⟨rfl, by decide⟩

/-- C2 (amended): every relative non-primary logical database reference is
resolved against the primary database's containing directory
(`getMainDatabasePath`) — the process working directory plays no role — the
stored absolute path being the path join of that directory with the
reference; in particular, with primary `/data/main.db` and reference
`../shared/ext.db`, the stored path is `/shared/ext.db` (the `..` ascends
out of `/data`). -/
theorem buildTableName_resolves_relative (s : DriverState) (id : String)
    (sch : Option String) (r mp : String)
    (h1 : isAbsolute r = false) (h2 : r ≠ "")
    (h3 : r ≠ s.options.database)
    (h4 : lookupEntry s.attachedDatabases r = none)
    (h5 : getMainDatabasePath s.options = some mp) :
    buildTableName s id sch (some r) =
      Except.ok (filepathToName r ++ "." ++ id,
        { s with attachedDatabases := s.attachedDatabases ++
          [(r, { attachFilepathAbsolute := pathJoin mp r,
                 attachFilepathRelative := r,
                 attachHandle := filepathToName r })] }) := by
  simp [buildTableName, h2, getAttachedDatabaseHandleByRelativePath, h4, h3,
    h1, h5]

/-- Witness for the amended C2: primary `/data/main.db` has containing
directory `/data`, and resolving `../shared/ext.db` stores absolute path
`/shared/ext.db`. -/
theorem buildTableName_resolves_relative_witness :
    buildTableName (initialState { database := "/data/main.db" } 0) "u" none
        (some "../shared/ext.db") =
      Except.ok ("db_../shared/ext.db.u",
        { options := { database := "/data/main.db" }, sqlite := 0,
          attachedDatabases := [("../shared/ext.db",
            { attachFilepathAbsolute := "/shared/ext.db",
              attachFilepathRelative := "../shared/ext.db",
              attachHandle := "db_../shared/ext.db" })] }) :=
  buildTableName_resolves_relative
    (initialState { database := "/data/main.db" } 0) "u" none
    "../shared/ext.db" "/data" (by decide) (by decide) (by decide) rfl rfl

/-- C9: in any reachable state, if the primary database path is relative
and no `baseDirectory` is configured, resolving any relative non-primary
reference dereferences the absent `baseDirectory` inside
`getMainDatabasePath` and fails with a runtime type error; and whenever
`baseDirectory` is set when the primary path is relative, that error branch
is unreachable — resolution always succeeds. -/
theorem relative_primary_without_base (o : ConnectionOptions)
    (s : DriverState) (id : String) (sch : Option String) (r : String)
    (hre : Reached o s) (hrel : isAbsolute r = false) (hne : r ≠ "")
    (hnp : r ≠ o.database) :
    (isAbsolute o.database = false → o.baseDirectory = none →
      buildTableName s id sch (some r) = Except.error JsError.typeError) ∧
    ((isAbsolute o.database = false → o.baseDirectory ≠ none) →
      ∃ res, buildTableName s id sch (some r) = Except.ok res) := by
  obtain ⟨ho, _, hinv⟩ := reached_inv hre
  subst ho
  constructor
  · intro hpa hbd
    have hl := hinv hpa hbd r hrel
    have hm : getMainDatabasePath s.options = none := by
      simp [getMainDatabasePath, hpa, hbd]
    simp [buildTableName, hne, getAttachedDatabaseHandleByRelativePath, hl,
      hnp, hrel, hm]
  · intro hb
    match hl : lookupEntry s.attachedDatabases r with
    | some e =>
      exact ⟨(e.attachHandle ++ "." ++ id, s), by
        simp [buildTableName, hne, getAttachedDatabaseHandleByRelativePath, hl]⟩
    | none =>
      have hm : ∃ mp, getMainDatabasePath s.options = some mp := by
        by_cases hpa : isAbsolute s.options.database = true
        · exact ⟨pathDirname s.options.database, by
            simp [getMainDatabasePath, hpa]⟩
        · obtain ⟨b, hbd⟩ := Option.ne_none_iff_exists'.mp
            (hb (by simpa using hpa))
          exact ⟨pathDirname (pathJoin b s.options.database), by
            simp [getMainDatabasePath, hpa, hbd]⟩
      obtain ⟨mp, hm⟩ := hm
      exact ⟨(filepathToName r ++ "." ++ id,
        { s with attachedDatabases := s.attachedDatabases ++
          [(r, { attachFilepathAbsolute := pathJoin mp r,
                 attachFilepathRelative := r,
                 attachHandle := filepathToName r })] }), by
        simp [buildTableName, hne, getAttachedDatabaseHandleByRelativePath,
          hl, hnp, hrel, hm]⟩

/-- Witness for C9: primary `main.db` is relative, `baseDirectory` is not
configured, so resolving the relative reference `rel.db` fails with a
runtime type error in a fresh driver. -/
theorem relative_primary_without_base_witness :
    buildTableName (initialState { database := "main.db" } 0) "t" none
        (some "rel.db") = Except.error JsError.typeError :=
  (relative_primary_without_base { database := "main.db" }
    (initialState { database := "main.db" } 0) "t" none "rel.db"
    (Reached.init 0) (by decide) (by decide) (by decide)).1 rfl rfl

/-- C10: the registry is keyed by the raw supplied reference and the handle
derives from the raw string, not from the normalized absolute path:
`ext.db` and `./ext.db`, which resolve to the same file `/data/ext.db`
next to primary `/data/main.db`, create two registry entries with two
distinct handles, and the attachment step issues two attach statements for
that one file. -/
theorem raw_key_registry_two_attaches :
    buildTableName (initialState { database := "/data/main.db" } 0) "t1" none
        (some "ext.db") =
      Except.ok ("db_ext.db.t1",
        { options := { database := "/data/main.db" }, sqlite := 0,
          attachedDatabases := [("ext.db",
            { attachFilepathAbsolute := "/data/ext.db",
              attachFilepathRelative := "ext.db",
              attachHandle := "db_ext.db" })] }) ∧
    buildTableName
        { options := { database := "/data/main.db" }, sqlite := 0,
          attachedDatabases := [("ext.db",
            { attachFilepathAbsolute := "/data/ext.db",
              attachFilepathRelative := "ext.db",
              attachHandle := "db_ext.db" })] } "t2" none (some "./ext.db") =
      Except.ok ("db_./ext.db.t2",
        { options := { database := "/data/main.db" }, sqlite := 0,
          attachedDatabases := [("ext.db",
            { attachFilepathAbsolute := "/data/ext.db",
              attachFilepathRelative := "ext.db",
              attachHandle := "db_ext.db" }),
            ("./ext.db",
            { attachFilepathAbsolute := "/data/ext.db",
              attachFilepathRelative := "./ext.db",
              attachHandle := "db_./ext.db" })] }) ∧
    "db_ext.db" ≠ "db_./ext.db" ∧
    attachDatabasesTrace
        [("ext.db",
          { attachFilepathAbsolute := "/data/ext.db",
            attachFilepathRelative := "ext.db",
            attachHandle := "db_ext.db" }),
         ("./ext.db",
          { attachFilepathAbsolute := "/data/ext.db",
            attachFilepathRelative := "./ext.db",
            attachHandle := "db_./ext.db" })] =
      [ConnectEvent.mkdir "/data",
       ConnectEvent.attach "/data/ext.db" "db_ext.db",
       ConnectEvent.mkdir "/data",
       ConnectEvent.attach "/data/ext.db" "db_./ext.db"] :=
  ⟨rfl, rfl, by decide, rfl⟩

/-! ## Claim theorems: connection lifecycle -/

/-- C1 counterexample: disconnecting a never-connected driver fails with a
runtime `TypeError` (not `InvalidConnection`), and a second disconnect
after connect raises nothing at all — so disconnect does not raise
`InvalidConnection` exactly when no open physical handle exists. -/
theorem disconnect_counterexample :
    (disconnect (initialState { database := "/data/main.db" } 0)).1 =
      some JsError.typeError ∧
    some JsError.typeError ≠ some JsError.invalidConnection ∧
    (disconnect (disconnect
      (connect (initialState { database := "/data/main.db" } 0))).2).1 =
      none :=
  ⟨rfl, by decide, rfl⟩

/-- C1 (amended): `disconnect` drops the cached Query Runner reference and
calls close on the physical handle with no guard: on a never-connected
driver it fails with a runtime `TypeError` from dereferencing the undefined
handle, a disconnect with a handle present closes that handle while
retaining the reference (so a second disconnect in succession succeeds — the
engine's close is a no-op on a closed handle), and the driver never raises
`InvalidConnection`. -/
theorem disconnect_amended (s : DriverState)
    (h : s.databaseConnection = none) :
    (disconnect s).1 = some JsError.typeError ∧
    (disconnect s).2.queryRunner = false ∧
    (∀ s' : DriverState, ∀ hd : EngineHandle,
      s'.databaseConnection = some hd →
      (disconnect s').1 = none ∧
      (disconnect s').2.queryRunner = false ∧
      (disconnect s').2.databaseConnection = some (engineClose hd) ∧
      (disconnect (disconnect s').2).1 = none) ∧
    (∀ s' : DriverState,
      (disconnect s').1 ≠ some JsError.invalidConnection) := by
  refine ⟨?_, ?_, ?_, ?_⟩
  · simp [disconnect, h]
  · simp [disconnect, h]
  · intro s' hd hd'
    simp [disconnect, hd', engineClose]
  · intro s'
    cases hc : s'.databaseConnection <;> simp [disconnect, hc]

/-- Witness for the amended C1: a fresh driver on `:memory:` was never
connected, so its first disconnect fails with a runtime `TypeError`. -/
theorem disconnect_amended_witness :
    (disconnect (initialState { database := ":memory:" } 0)).1 =
      some JsError.typeError :=
  (disconnect_amended (initialState { database := ":memory:" } 0) rfl).1

/-- C6: over every sequence of lifecycle operations from a freshly
constructed driver, an open physical connection handle exists iff a connect
has succeeded with no disconnect called since; in particular no driver
state reached by completing a disconnect holds an open physical connection
handle. -/
theorem handle_invariant (s0 : DriverState)
    (h0 : s0.databaseConnection = none) (ops : List LifeOp) :
    (handleOpen (runOps s0 ops) ↔ connectedNow ops = true) ∧
    (∀ s : DriverState, ¬ handleOpen (disconnect s).2) := by
  have hdisc : ∀ s : DriverState, ¬ handleOpen (disconnect s).2 := by
    intro s
    cases hc : s.databaseConnection <;>
      simp [disconnect, hc, handleOpen, engineClose]
  refine ⟨?_, hdisc⟩
  have aux : ∀ (l : List LifeOp) (s : DriverState) (b : Bool),
      (handleOpen s ↔ b = true) →
      (handleOpen (runOps s l) ↔
        (l.foldl (fun _ op => match op with
          | LifeOp.connectOp => true
          | LifeOp.disconnectOp => false) b) = true) := by
    intro l
    induction l with
    | nil =>
      intro s b hb
      simpa using hb
    | cons op rest ih =>
      intro s b hb
      cases op with
      | connectOp =>
        simp only [runOps, List.foldl_cons]
        exact ih (connect s) true (by simp [connect, handleOpen])
      | disconnectOp =>
        simp only [runOps, List.foldl_cons]
        exact ih (disconnect s).2 false (by simpa using hdisc s)
  exact aux ops s0 false (by simp [handleOpen, h0])

/-- Witness for C6: after connect then disconnect from a fresh driver, the
invariant instantiates to: no open handle exists. -/
theorem handle_invariant_witness :
    handleOpen (runOps (initialState { database := "/data/main.db" } 1)
      [LifeOp.connectOp, LifeOp.disconnectOp]) ↔
    connectedNow [LifeOp.connectOp, LifeOp.disconnectOp] = true :=
  (handle_invariant (initialState { database := "/data/main.db" } 1) rfl
    [LifeOp.connectOp, LifeOp.disconnectOp]).1

/-! ## Claim theorems: connect sequencing -/

theorem attach_filterMap (reg : List (String × AttachedDatabaseEntry)) :
    (attachDatabasesTrace reg).filterMap connectPhase =
      List.replicate reg.length 4 := by
  induction reg with
  | nil => rfl
  | cons p rest ih =>
    simp only [attachDatabasesTrace, List.flatMap_cons,
      List.filterMap_append, List.length_cons, List.replicate_succ] at ih ⊢
    simp [connectPhase, ih]

theorem pairwise_le_replicate (n a : Nat) :
    List.Pairwise (fun x y => x ≤ y) (List.replicate n a) := by
  induction n with
  | zero => exact List.Pairwise.nil
  | succ k ih =>
    rw [List.replicate_succ]
    exact List.Pairwise.cons
      (fun b hb => by rw [List.eq_of_mem_replicate hb]) ih

theorem connect_steps_eq (o : ConnectionOptions)
    (reg : List (String × AttachedDatabaseEntry)) :
    (fullConnectTrace o reg).filterMap connectPhase =
      (if o.key.isSome then [0] else []) ++
      (if o.hasPrepareDatabase then [1] else []) ++ [2] ++
      (if o.enableWAL then [3] else []) ++ List.replicate reg.length 4 := by
  simp only [fullConnectTrace, createDatabaseConnectionTrace,
    List.filterMap_append, attach_filterMap]
  by_cases h1 : o.database = ":memory:" <;>
  by_cases h2 : o.key.isSome <;>
  by_cases h3 : o.hasPrepareDatabase <;>
  by_cases h4 : o.enableWAL <;>
    simp [h1, h2, h3, h4, connectPhase]

/-- C4: on every connect — reconnects included, since the trace is a
function of the options and registry alone — the sub-steps occur in the
fixed order key pragma, `prepareDatabase` hook, foreign-key enforcement,
WAL mode, attach statements: the phase sequence of the full connect trace
is monotone; moreover the key pragma appears iff a key is configured, the
hook iff configured, foreign-key enforcement unconditionally, and WAL iff
`enableWAL` is set. -/
theorem connect_substep_order (o : ConnectionOptions)
    (reg : List (String × AttachedDatabaseEntry)) :
    List.Pairwise (fun a b => a ≤ b)
      ((fullConnectTrace o reg).filterMap connectPhase) ∧
    (ConnectEvent.keyPragma ∈ fullConnectTrace o reg ↔
      o.key.isSome = true) ∧
    (ConnectEvent.prepareHook ∈ fullConnectTrace o reg ↔
      o.hasPrepareDatabase = true) ∧
    ConnectEvent.fkPragma ∈ fullConnectTrace o reg ∧
    (ConnectEvent.walPragma ∈ fullConnectTrace o reg ↔
      o.enableWAL = true) := by
  have hrep := pairwise_le_replicate reg.length 4
  refine ⟨?_, ?_, ?_, ?_, ?_⟩
  · rw [connect_steps_eq]
    by_cases h2 : o.key.isSome <;>
    by_cases h3 : o.hasPrepareDatabase <;>
    by_cases h4 : o.enableWAL <;>
      simp [h2, h3, h4, List.pairwise_append, List.pairwise_cons,
        List.mem_replicate, hrep]
  · by_cases h1 : o.database = ":memory:" <;>
    by_cases h2 : o.key.isSome <;>
    by_cases h3 : o.hasPrepareDatabase <;>
    by_cases h4 : o.enableWAL <;>
      simp [fullConnectTrace, createDatabaseConnectionTrace,
        attachDatabasesTrace, List.mem_flatMap, h1, h2, h3, h4]
  · by_cases h1 : o.database = ":memory:" <;>
    by_cases h2 : o.key.isSome <;>
    by_cases h3 : o.hasPrepareDatabase <;>
    by_cases h4 : o.enableWAL <;>
      simp [fullConnectTrace, createDatabaseConnectionTrace,
        attachDatabasesTrace, List.mem_flatMap, h1, h2, h3, h4]
  · simp [fullConnectTrace, createDatabaseConnectionTrace]
  · by_cases h1 : o.database = ":memory:" <;>
    by_cases h2 : o.key.isSome <;>
    by_cases h3 : o.hasPrepareDatabase <;>
    by_cases h4 : o.enableWAL <;>
      simp [fullConnectTrace, createDatabaseConnectionTrace,
        attachDatabasesTrace, List.mem_flatMap, h1, h2, h3, h4]


/-- Each registry entry's directory creation immediately precedes its
attach statement inside the attachment trace. -/
theorem attach_pair_infix {reg : List (String × AttachedDatabaseEntry)}
    {k : String} {e : AttachedDatabaseEntry} (h : (k, e) ∈ reg) :
    ∃ pre post, attachDatabasesTrace reg =
      pre ++ ([ConnectEvent.mkdir (pathDirname e.attachFilepathAbsolute),
               ConnectEvent.attach e.attachFilepathAbsolute e.attachHandle]
        ++ post) := by
  induction reg with
  | nil => cases h
  | cons p rest ih =>
    rcases List.mem_cons.mp h with heq | hmem
    · refine ⟨[], attachDatabasesTrace rest, ?_⟩
      simp [attachDatabasesTrace, ← heq]
    · obtain ⟨pre, post, hpp⟩ := ih hmem
      refine ⟨[ConnectEvent.mkdir (pathDirname p.2.attachFilepathAbsolute),
        ConnectEvent.attach p.2.attachFilepathAbsolute p.2.attachHandle]
        ++ pre, post, ?_⟩
      simp [attachDatabasesTrace, List.flatMap_cons] at hpp ⊢
      simp [hpp]

/-- C7: with `:memory:` as primary database, connect performs no directory
creation at all for the primary store, yet each attachment registry entry
still has its containing directory created immediately before its attach
statement within the full connect trace. -/
theorem memory_primary_no_mkdir (o : ConnectionOptions)
    (reg : List (String × AttachedDatabaseEntry))
    (h : o.database = ":memory:") :
    (∀ p, ConnectEvent.mkdir p ∉ createDatabaseConnectionTrace o) ∧
    (∀ k e, (k, e) ∈ reg → ∃ pre post, fullConnectTrace o reg =
      pre ++ ([ConnectEvent.mkdir (pathDirname e.attachFilepathAbsolute),
               ConnectEvent.attach e.attachFilepathAbsolute e.attachHandle]
        ++ post)) := by
  constructor
  · intro p
    by_cases h2 : o.key.isSome <;>
    by_cases h3 : o.hasPrepareDatabase <;>
    by_cases h4 : o.enableWAL <;>
      simp [createDatabaseConnectionTrace, h, h2, h3, h4]
  · intro k e hke
    obtain ⟨pre, post, hpp⟩ := attach_pair_infix hke
    refine ⟨createDatabaseConnectionTrace o ++ pre, post, ?_⟩
    simp [fullConnectTrace, hpp]

/-- Witness for C7: an in-memory primary with one registered attachment
`ext.db` gets no primary directory creation, and its entry's directory is
created right before its attach statement. -/
theorem memory_primary_no_mkdir_witness :
    ConnectEvent.mkdir "/data" ∉ createDatabaseConnectionTrace
      { database := ":memory:" } ∧
    (∃ pre post, fullConnectTrace { database := ":memory:" }
        [("ext.db", { attachFilepathAbsolute := "/data/ext.db",
                      attachFilepathRelative := "ext.db",
                      attachHandle := "db_ext.db" })] =
      pre ++ ([ConnectEvent.mkdir "/data",
               ConnectEvent.attach "/data/ext.db" "db_ext.db"] ++ post)) := by
  constructor
  · exact (memory_primary_no_mkdir { database := ":memory:" } [] rfl).1 "/data"
  · have h := (memory_primary_no_mkdir { database := ":memory:" }
      [("ext.db", { attachFilepathAbsolute := "/data/ext.db",
                    attachFilepathRelative := "ext.db",
                    attachHandle := "db_ext.db" })] rfl).2
      "ext.db" { attachFilepathAbsolute := "/data/ext.db",
                 attachFilepathRelative := "ext.db",
                 attachHandle := "db_ext.db" } (List.mem_singleton.mpr rfl)
    simpa using h

/-! ## Claim theorems: dependency acquisition -/

/-- C8: dependency acquisition happens inside the constructor: the explicit
`options.driver` override is used when supplied; otherwise the named
`better-sqlite3` runtime dependency is loaded; when that load fails,
construction itself fails with `DriverPackageNotInstalledError` naming the
`better-sqlite3` package and the SQLite engine family — no driver instance
is produced on failure, so the error precedes any connection attempt and is
never deferred; and this is the only construction-time error. -/
theorem constructDriver_spec (o : ConnectionOptions) (avail : Option Nat) :
    (∀ d, o.driver = some d → constructDriver o avail =
      Except.ok (initialState o d)) ∧
    (o.driver = none → avail = none → constructDriver o avail =
      Except.error (JsError.driverPackageNotInstalled "SQLite"
        "better-sqlite3")) ∧
    (o.driver = none → ∀ m, avail = some m → constructDriver o avail =
      Except.ok (initialState o m)) ∧
    (∀ e, constructDriver o avail = Except.error e →
      e = JsError.driverPackageNotInstalled "SQLite" "better-sqlite3") := by
  refine ⟨?_, ?_, ?_, ?_⟩
  · intro d hd
    simp [constructDriver, loadDependencies, hd]
  · intro h1 h2
    simp [constructDriver, loadDependencies, h1, h2]
  · intro h1 m h2
    simp [constructDriver, loadDependencies, h1, h2]
  · intro e he
    match hd : o.driver with
    | some d => simp [constructDriver, loadDependencies, hd] at he
    | none =>
      match ha : avail with
      | some m => simp [constructDriver, loadDependencies, hd, ha] at he
      | none =>
        simp only [constructDriver, loadDependencies, hd, ha,
          Except.error.injEq] at he
        exact he.symm

/-- Witness for C8: with no override and the `better-sqlite3` package
unavailable, construction fails with the package-not-installed error. -/
theorem constructDriver_spec_witness :
    constructDriver { database := "main.db", driver := none } none =
      Except.error (JsError.driverPackageNotInstalled "SQLite"
        "better-sqlite3") :=
  (constructDriver_spec { database := "main.db", driver := none }
    none).2.1 rfl rfl

end BetterSqlite3
